import Mathlib

/-!
Verification of the admin router of PI_Dashboard
(`src/app/routers/admin.py`).

The router has three handlers:
* `admin_home` — renders the admin page listing snapshot rows ordered by
  `snapshot_date` descending;
* `upload_snapshot` — iterates over the uploaded files, calls the external
  importer `import_snapshot` on each, accumulates counts, collects warnings
  and errors prefixed with `[<filename>] `, and builds an aggregated report;
* `list_snapshots` — returns the snapshot rows as JSON records with four
  fields.

The external importer is modelled parametrically: an uploaded file is paired
with the report that `import_snapshot` returns for it, so every theorem
quantifies over all possible importer behaviours.  The sqlite query
`SELECT * FROM snapshots ORDER BY snapshot_date DESC` is modelled as sorting
the table by the date column in descending order.
-/

namespace PIDashboard

/-- The `SnapshotReport` schema: success flag, message, processed-project and
processed-event counts, warning list, error list.  Counts are Python
integers, modelled as `Int`. -/
structure SnapshotReport where
  success : Bool
  message : String
  processed_projects : Int
  processed_events : Int
  warnings : List String
  errors : List String
  deriving Repr, DecidableEq

/-- An uploaded file together with the report the external importer
`import_snapshot` returns for it.  The importer's internals are out of
scope, so the report is an arbitrary value paired with the file. -/
structure ImportedFile where
  filename : String
  report : SnapshotReport
  deriving Repr, DecidableEq

/-- `[pre + m for m in msgs]`. -/
def prefixedList (pre : String) (msgs : List String) : List String :=
  msgs.map (fun m => pre ++ m)

/-- The warnings of one file, each prefixed with `[<filename>] `. -/
def prefixedWarnings (f : ImportedFile) : List String :=
  prefixedList ("[" ++ f.filename ++ "] ") f.report.warnings

/-- The errors of one file, each prefixed with `[<filename>] `. -/
def prefixedErrors (f : ImportedFile) : List String :=
  prefixedList ("[" ++ f.filename ++ "] ") f.report.errors

/-- The mutable state of the loop in `upload_snapshot`: the aggregated
report under construction and `valid_files_count`. -/
structure UploadState where
  aggregated_report : SnapshotReport
  valid_files_count : Nat
  deriving Repr, DecidableEq

/-- The body of the `for file in files` loop in `upload_snapshot`:
accumulate the counts, append the prefixed warnings and errors when
non-empty, clear the success flag on errors, and count files whose report
has `success` true. -/
def processFile (st : UploadState) (f : ImportedFile) : UploadState :=
  let report := f.report
  let agg0 := st.aggregated_report
  let agg1 := { agg0 with
    processed_projects := agg0.processed_projects + report.processed_projects,
    processed_events := agg0.processed_events + report.processed_events }
  let pre := "[" ++ f.filename ++ "] "
  let agg2 :=
    if report.warnings ≠ [] then
      { agg1 with warnings := agg1.warnings ++ prefixedList pre report.warnings }
    else agg1
  let agg3 :=
    if report.errors ≠ [] then
      { agg2 with
        errors := agg2.errors ++ prefixedList pre report.errors,
        success := false }
    else agg2
  { aggregated_report := agg3,
    valid_files_count :=
      if report.success then st.valid_files_count + 1 else st.valid_files_count }

/-- The aggregated report `upload_snapshot` starts from. -/
def initialReport : SnapshotReport :=
  { success := true, message := "", processed_projects := 0,
    processed_events := 0, warnings := [], errors := [] }

/-- The aggregated report built by `upload_snapshot` for a batch of files:
run the loop, then construct the final message.  If any errors were
collected the message reports the succeeded/failed split, otherwise it
reports `valid_files_count` successful uploads. -/
def upload_snapshot_report (files : List ImportedFile) : SnapshotReport :=
  let st := files.foldl processFile
    { aggregated_report := initialReport, valid_files_count := 0 }
  let agg := st.aggregated_report
  if agg.errors ≠ [] then
    { agg with
      success := false,
      message := "Processed " ++ toString files.length ++ " files. " ++
        toString st.valid_files_count ++ " succeeded, " ++
        toString (files.length - st.valid_files_count) ++ " failed." }
  else
    { agg with
      success := true,
      message := "Successfully uploaded " ++
        toString st.valid_files_count ++ " files." }

/-- A row of the `snapshots` table: id, date, upload timestamp, source
filename.  The date is modelled as an integer sort key. -/
structure SnapshotRow where
  snapshot_id : Int
  snapshot_date : Int
  uploaded_at : Int
  source_filename : String
  deriving Repr, DecidableEq

/-- `SELECT * FROM snapshots ORDER BY snapshot_date DESC`: the table rows
sorted by `snapshot_date` in descending order. -/
def snapshotsOrderedByDateDesc (table : List SnapshotRow) : List SnapshotRow :=
  table.mergeSort (fun a b => b.snapshot_date ≤ a.snapshot_date)

/-- The data the admin template is rendered with: the snapshot rows, the
optional aggregated report, and the body class. -/
structure AdminPage where
  snapshots : List SnapshotRow
  report : Option SnapshotReport
  body_class : String
  deriving Repr, DecidableEq

/-- `GET /admin`: render the page with the rows ordered by date
descending and no report. -/
def admin_home (table : List SnapshotRow) : AdminPage :=
  { snapshots := snapshotsOrderedByDateDesc table,
    report := none,
    body_class := "cockpit" }

/-- `POST /admin/upload`: build the aggregated report for the batch and
render the page with the rows and the report. -/
def upload_snapshot (files : List ImportedFile) (table : List SnapshotRow) :
    AdminPage :=
  { snapshots := snapshotsOrderedByDateDesc table,
    report := some (upload_snapshot_report files),
    body_class := "cockpit" }

/-- One record of the JSON listing: exactly the four fields
`snapshot_id`, `snapshot_date`, `uploaded_at`, `source_filename`. -/
structure SnapshotRecord where
  snapshot_id : Int
  snapshot_date : Int
  uploaded_at : Int
  source_filename : String
  deriving Repr, DecidableEq

/-- The dictionary built for one row in `list_snapshots`: each field is
copied from the corresponding column of the row. -/
def rowToRecord (row : SnapshotRow) : SnapshotRecord :=
  { snapshot_id := row.snapshot_id,
    snapshot_date := row.snapshot_date,
    uploaded_at := row.uploaded_at,
    source_filename := row.source_filename }

/-- `GET /api/snapshots`: the ordered rows, each converted to a
four-field record. -/
def list_snapshots (table : List SnapshotRow) : List SnapshotRecord :=
  (snapshotsOrderedByDateDesc table).map rowToRecord

/-! ### Field-level behaviour of one loop iteration -/

theorem processFile_projects (st : UploadState) (f : ImportedFile) :
    (processFile st f).aggregated_report.processed_projects =
      st.aggregated_report.processed_projects + f.report.processed_projects := by
  simp only [processFile]
  split <;> split <;> rfl

theorem processFile_events (st : UploadState) (f : ImportedFile) :
    (processFile st f).aggregated_report.processed_events =
      st.aggregated_report.processed_events + f.report.processed_events := by
  simp only [processFile]
  split <;> split <;> rfl

theorem processFile_warnings (st : UploadState) (f : ImportedFile) :
    (processFile st f).aggregated_report.warnings =
      st.aggregated_report.warnings ++ prefixedWarnings f := by
  simp only [processFile, prefixedWarnings]
  split <;> split <;> rename_i hw _
  all_goals simp_all [prefixedList]

theorem processFile_errors (st : UploadState) (f : ImportedFile) :
    (processFile st f).aggregated_report.errors =
      st.aggregated_report.errors ++ prefixedErrors f := by
  simp only [processFile, prefixedErrors]
  split <;> split <;> rename_i he
  all_goals simp_all [prefixedList]

theorem processFile_success (st : UploadState) (f : ImportedFile) :
    (processFile st f).aggregated_report.success =
      (st.aggregated_report.success && f.report.errors.isEmpty) := by
  simp only [processFile]
  split <;> split <;> rename_i he
  all_goals simp_all [List.isEmpty_iff]

theorem processFile_message (st : UploadState) (f : ImportedFile) :
    (processFile st f).aggregated_report.message =
      st.aggregated_report.message := by
  simp only [processFile]
  split <;> split <;> rfl

theorem processFile_valid_count (st : UploadState) (f : ImportedFile) :
    (processFile st f).valid_files_count =
      st.valid_files_count + (if f.report.success then 1 else 0) := by
  simp only [processFile]
  split <;> rfl

/-! ### Characterization of the whole loop -/

/-- After folding `processFile` over the batch from any starting state:
the counts grew by the per-file sums, the warning and error lists grew by
the concatenated prefixed per-file lists in order, the success flag is the
starting flag conjoined with emptiness of every per-file error list, the
message is untouched, and `valid_files_count` grew by the number of files
whose report has `success` true. -/
theorem foldl_processFile_spec (files : List ImportedFile) (st : UploadState) :
    ((files.foldl processFile st).aggregated_report.processed_projects =
        st.aggregated_report.processed_projects +
          (files.map (fun f => f.report.processed_projects)).sum) ∧
    ((files.foldl processFile st).aggregated_report.processed_events =
        st.aggregated_report.processed_events +
          (files.map (fun f => f.report.processed_events)).sum) ∧
    ((files.foldl processFile st).aggregated_report.warnings =
        st.aggregated_report.warnings ++ (files.map prefixedWarnings).flatten) ∧
    ((files.foldl processFile st).aggregated_report.errors =
        st.aggregated_report.errors ++ (files.map prefixedErrors).flatten) ∧
    ((files.foldl processFile st).aggregated_report.success =
        (st.aggregated_report.success &&
          files.all (fun f => f.report.errors.isEmpty))) ∧
    ((files.foldl processFile st).aggregated_report.message =
        st.aggregated_report.message) ∧
    ((files.foldl processFile st).valid_files_count =
        st.valid_files_count + files.countP (fun f => f.report.success)) := by
  induction files generalizing st with
  | nil => simp
  | cons f fs ih =>
    obtain ⟨hp, he, hw, herr, hs, hm, hv⟩ := ih (processFile st f)
    simp only [List.foldl_cons, List.map_cons, List.sum_cons, List.flatten_cons,
      List.all_cons, List.countP_cons]
    refine ⟨?_, ?_, ?_, ?_, ?_, ?_, ?_⟩
    · rw [hp, processFile_projects]; ring
    · rw [he, processFile_events]; ring
    · rw [hw, processFile_warnings]; simp
    · rw [herr, processFile_errors]; simp
    · rw [hs, processFile_success]; simp [Bool.and_assoc]
    · rw [hm, processFile_message]
    · rw [hv, processFile_valid_count]
      by_cases h : f.report.success
      · simp [h]
        omega
      · simp [h]

/-! ### Field-level corollaries for the aggregated report -/

/-- The state `upload_snapshot` starts the loop from. -/
def initState : UploadState :=
  { aggregated_report := initialReport, valid_files_count := 0 }

theorem upload_report_errors_eq (files : List ImportedFile) :
    (upload_snapshot_report files).errors = (files.map prefixedErrors).flatten := by
  have h := (foldl_processFile_spec files initState).2.2.2.1
  simp only [initState, initialReport, List.nil_append] at h
  unfold upload_snapshot_report
  dsimp only
  split <;> simpa [initState, initialReport] using h

theorem upload_report_warnings_eq (files : List ImportedFile) :
    (upload_snapshot_report files).warnings =
      (files.map prefixedWarnings).flatten := by
  have h := (foldl_processFile_spec files initState).2.2.1
  simp only [initState, initialReport, List.nil_append] at h
  unfold upload_snapshot_report
  dsimp only
  split <;> simpa [initState, initialReport] using h

theorem upload_report_projects_eq (files : List ImportedFile) :
    (upload_snapshot_report files).processed_projects =
      (files.map (fun f => f.report.processed_projects)).sum := by
  have h := (foldl_processFile_spec files initState).1
  simp only [initState, initialReport, zero_add] at h
  unfold upload_snapshot_report
  dsimp only
  split <;> simpa [initState, initialReport] using h

theorem upload_report_events_eq (files : List ImportedFile) :
    (upload_snapshot_report files).processed_events =
      (files.map (fun f => f.report.processed_events)).sum := by
  have h := (foldl_processFile_spec files initState).2.1
  simp only [initState, initialReport, zero_add] at h
  unfold upload_snapshot_report
  dsimp only
  split <;> simpa [initState, initialReport] using h

theorem upload_valid_count_eq (files : List ImportedFile) :
    (files.foldl processFile initState).valid_files_count =
      files.countP (fun f => f.report.success) := by
  have h := (foldl_processFile_spec files initState).2.2.2.2.2.2
  simpa [initState] using h

/-- The collected error list is empty exactly when every per-file error
list is empty. -/
theorem upload_errors_flatten_empty_iff (files : List ImportedFile) :
    (files.map prefixedErrors).flatten = [] ↔
      files.all (fun f => f.report.errors.isEmpty) = true := by
  simp [List.flatten_eq_nil_iff, prefixedErrors, prefixedList,
    List.all_eq_true, List.isEmpty_iff]

theorem upload_report_success_eq (files : List ImportedFile) :
    (upload_snapshot_report files).success =
      files.all (fun f => f.report.errors.isEmpty) := by
  have herr := (foldl_processFile_spec files initState).2.2.2.1
  simp only [initState, initialReport, List.nil_append] at herr
  unfold upload_snapshot_report
  dsimp only
  split <;> rename_i hcond
  · simp only [initialReport] at hcond
    rw [herr] at hcond
    have hx := (not_iff_not.mpr (upload_errors_flatten_empty_iff files)).mp hcond
    simp_all
  · simp only [initialReport] at hcond
    rw [not_not] at hcond
    rw [herr] at hcond
    have hx := (upload_errors_flatten_empty_iff files).mp hcond
    simp_all

theorem upload_report_message_eq (files : List ImportedFile) :
    (upload_snapshot_report files).message =
      if (files.map prefixedErrors).flatten ≠ [] then
        "Processed " ++ toString files.length ++ " files. " ++
          toString (files.countP (fun f => f.report.success)) ++
          " succeeded, " ++
          toString (files.length - files.countP (fun f => f.report.success)) ++
          " failed."
      else
        "Successfully uploaded " ++
          toString (files.countP (fun f => f.report.success)) ++ " files." := by
  have herr := (foldl_processFile_spec files initState).2.2.2.1
  simp only [initState, initialReport, List.nil_append] at herr
  have hv := upload_valid_count_eq files
  unfold upload_snapshot_report
  dsimp only
  split <;> rename_i hcond
  · simp only [initialReport] at hcond
    rw [herr] at hcond
    simp only [initState] at hv
    rw [hv]
    simp [hcond]
  · simp only [initialReport] at hcond
    rw [not_not] at hcond
    rw [herr] at hcond
    simp only [initState] at hv
    rw [hv]
    simp [hcond]

/-! ### Sortedness of the listing query -/

theorem snapshotsOrdered_pairwise (table : List SnapshotRow) :
    (snapshotsOrderedByDateDesc table).Pairwise
      (fun a b => b.snapshot_date ≤ a.snapshot_date) := by
  have h : (snapshotsOrderedByDateDesc table).Pairwise
      (fun a b : SnapshotRow =>
        decide (b.snapshot_date ≤ a.snapshot_date) = true) := by
    apply List.sorted_mergeSort
    · intro a b c hab hbc
      simp only [decide_eq_true_eq] at *
      omega
    · intro a b
      simp only [Bool.or_eq_true, decide_eq_true_eq]
      omega
  exact h.imp (fun hab => by simpa using hab)

/-! ### Claim theorems -/

/-- C3: for every database state, the rows rendered by the admin page
handler and the records returned by the JSON listing handler are ordered
by snapshot date descending. -/
theorem listing_ordered_by_date_desc (table : List SnapshotRow) :
    (admin_home table).snapshots.Pairwise
      (fun a b => b.snapshot_date ≤ a.snapshot_date) ∧
    (list_snapshots table).Pairwise
      (fun a b => b.snapshot_date ≤ a.snapshot_date) := by
  constructor
  · exact snapshotsOrdered_pairwise table
  · unfold list_snapshots
    rw [List.pairwise_map]
    exact (snapshotsOrdered_pairwise table).imp
      (fun hab => by simpa [rowToRecord] using hab)

/-- C4: the aggregated report's `processed_projects` is the sum of the
per-file `processed_projects`, and likewise for `processed_events`,
starting from 0 for the empty batch. -/
theorem upload_counts_are_sums (files : List ImportedFile) :
    (upload_snapshot_report files).processed_projects =
      (files.map (fun f => f.report.processed_projects)).sum ∧
    (upload_snapshot_report files).processed_events =
      (files.map (fun f => f.report.processed_events)).sum ∧
    (upload_snapshot_report ([] : List ImportedFile)).processed_projects = 0 ∧
    (upload_snapshot_report ([] : List ImportedFile)).processed_events = 0 := by
  refine ⟨upload_report_projects_eq files, upload_report_events_eq files, rfl, rfl⟩

/-- C7: the files are processed sequentially in the order given, so the
aggregated warning list is the concatenation, in file order, of the
prefixed per-file warning lists, and likewise for the error lists. -/
theorem upload_lists_concatenated_in_order (files : List ImportedFile) :
    (upload_snapshot_report files).warnings =
      (files.map prefixedWarnings).flatten ∧
    (upload_snapshot_report files).errors =
      (files.map prefixedErrors).flatten := by
  exact ⟨upload_report_warnings_eq files, upload_report_errors_eq files⟩

/-- C8: for the empty batch the aggregated report has success true, the
message "Successfully uploaded 0 files.", zero counts and empty warning
and error lists. -/
theorem upload_empty_batch :
    upload_snapshot_report [] =
      { success := true, message := "Successfully uploaded 0 files.",
        processed_projects := 0, processed_events := 0,
        warnings := [], errors := [] } := by
  rfl

/-- C1: in a batch where at least one file produces errors, the
aggregated success is false, the aggregated error list length is the sum
of the per-file error list lengths, and every aggregated error entry is a
per-file error prefixed with the originating filename. -/
theorem upload_batch_with_errors (files : List ImportedFile)
    (h : ∃ f ∈ files, f.report.errors ≠ []) :
    (upload_snapshot_report files).success = false ∧
    (upload_snapshot_report files).errors.length =
      (files.map (fun f => f.report.errors.length)).sum ∧
    ∀ msg ∈ (upload_snapshot_report files).errors,
      ∃ f ∈ files, ∃ e ∈ f.report.errors,
        msg = "[" ++ f.filename ++ "] " ++ e := by
  refine ⟨?_, ?_, ?_⟩
  · rw [upload_report_success_eq]
    obtain ⟨f, hf, hfe⟩ := h
    rw [List.all_eq_false]
    exact ⟨f, hf, by simpa [List.isEmpty_iff] using hfe⟩
  · rw [upload_report_errors_eq]
    rw [List.length_flatten, List.map_map]
    have hcomp : (List.length ∘ prefixedErrors) =
        fun f : ImportedFile => f.report.errors.length := by
      funext f
      simp [prefixedErrors, prefixedList]
    rw [hcomp]
  · intro msg hmsg
    rw [upload_report_errors_eq] at hmsg
    simp only [List.mem_flatten, List.mem_map] at hmsg
    obtain ⟨l, ⟨f, hf, rfl⟩, hml⟩ := hmsg
    simp only [prefixedErrors, prefixedList, List.mem_map] at hml
    obtain ⟨e, he, rfl⟩ := hml
    exact ⟨f, hf, e, he, rfl⟩

/-- A file whose report carries two errors and one warning. -/
def errFile : ImportedFile :=
  { filename := "bad.csv",
    report :=
      { success := false, message := "", processed_projects := 1,
        processed_events := 2, warnings := ["w1"], errors := ["e1", "e2"] } }

/-- Witness for C1 at the one-element batch `[errFile]`. -/
theorem upload_batch_with_errors_witness :
    (∃ f ∈ [errFile], f.report.errors ≠ []) ∧
    ((upload_snapshot_report [errFile]).success = false ∧
     (upload_snapshot_report [errFile]).errors.length =
       ([errFile].map (fun f => f.report.errors.length)).sum ∧
     ∀ msg ∈ (upload_snapshot_report [errFile]).errors,
       ∃ f ∈ [errFile], ∃ e ∈ f.report.errors,
         msg = "[" ++ f.filename ++ "] " ++ e) :=
  ⟨⟨errFile, by decide, by decide⟩,
   upload_batch_with_errors [errFile] ⟨errFile, by decide, by decide⟩⟩

/-- A file whose report has an empty error list but success false. -/
def cleanFailedFile : ImportedFile :=
  { filename := "empty.xlsx",
    report :=
      { success := false, message := "", processed_projects := 0,
        processed_events := 0, warnings := [], errors := [] } }

/-- C2 counterexample: a one-file batch whose report has no errors but
success false.  Aggregated success is true, yet the message reports 0
uploads while N = 1, so the count in the message is not N. -/
theorem upload_clean_batch_count_counterexample :
    (∀ f ∈ [cleanFailedFile], f.report.errors = []) ∧
    ([cleanFailedFile] : List ImportedFile).length = 1 ∧
    (upload_snapshot_report [cleanFailedFile]).success = true ∧
    (upload_snapshot_report [cleanFailedFile]).message =
      "Successfully uploaded 0 files." ∧
    (upload_snapshot_report [cleanFailedFile]).message ≠
      "Successfully uploaded 1 files." := by
  exact ⟨by decide, rfl, rfl, rfl, by decide⟩

/-- C2 (amended): for a batch where every per-file error list is empty,
the aggregated success is true and the message reports as uploaded the
number of files whose per-file report has success true; this count equals
N exactly when every per-file success flag is also true. -/
theorem upload_clean_batch_success (files : List ImportedFile)
    (h : ∀ f ∈ files, f.report.errors = []) :
    (upload_snapshot_report files).success = true ∧
    (upload_snapshot_report files).message =
      "Successfully uploaded " ++
        toString (files.countP (fun f => f.report.success)) ++ " files." ∧
    ((∀ f ∈ files, f.report.success = true) →
      files.countP (fun f => f.report.success) = files.length) := by
  have hall : files.all (fun f => f.report.errors.isEmpty) = true := by
    rw [List.all_eq_true]
    intro f hf
    simp [List.isEmpty_iff, h f hf]
  have hflat : (files.map prefixedErrors).flatten = [] :=
    (upload_errors_flatten_empty_iff files).mpr hall
  refine ⟨?_, ?_, ?_⟩
  · rw [upload_report_success_eq]
    exact hall
  · rw [upload_report_message_eq]
    simp [hflat]
  · intro hs
    rw [List.countP_eq_length]
    intro f hf
    simpa using hs f hf

/-- A file whose report succeeds with no warnings or errors. -/
def goodFile : ImportedFile :=
  { filename := "ok.xlsx",
    report :=
      { success := true, message := "", processed_projects := 3,
        processed_events := 4, warnings := [], errors := [] } }

/-- Witness for the amended C2 at the one-element batch `[goodFile]`. -/
theorem upload_clean_batch_success_witness :
    (∀ f ∈ [goodFile], f.report.errors = []) ∧
    ((upload_snapshot_report [goodFile]).success = true ∧
     (upload_snapshot_report [goodFile]).message =
       "Successfully uploaded " ++
         toString ([goodFile].countP (fun f => f.report.success)) ++
         " files." ∧
     ((∀ f ∈ [goodFile], f.report.success = true) →
       [goodFile].countP (fun f => f.report.success) =
         ([goodFile] : List ImportedFile).length)) :=
  ⟨by decide, upload_clean_batch_success [goodFile] (by decide)⟩

/-- C5: the upload handler always returns the annotated page carrying the
aggregated report, and each per-file error appears, prefixed, as an entry
of the aggregated error list. -/
theorem upload_never_fails_and_surfaces_errors
    (files : List ImportedFile) (table : List SnapshotRow)
    (f : ImportedFile) (hf : f ∈ files) (e : String)
    (he : e ∈ f.report.errors) :
    upload_snapshot files table =
      { snapshots := snapshotsOrderedByDateDesc table,
        report := some (upload_snapshot_report files),
        body_class := "cockpit" } ∧
    ("[" ++ f.filename ++ "] " ++ e) ∈ (upload_snapshot_report files).errors := by
  refine ⟨rfl, ?_⟩
  rw [upload_report_errors_eq, List.mem_flatten]
  refine ⟨prefixedErrors f, List.mem_map_of_mem _ hf, ?_⟩
  simp only [prefixedErrors, prefixedList, List.mem_map]
  exact ⟨e, he, rfl⟩

/-- Witness for C5 at the batch `[errFile]` and the empty table. -/
theorem upload_never_fails_witness :
    (errFile ∈ [errFile] ∧ "e1" ∈ errFile.report.errors) ∧
    (upload_snapshot [errFile] [] =
      { snapshots := snapshotsOrderedByDateDesc [],
        report := some (upload_snapshot_report [errFile]),
        body_class := "cockpit" } ∧
     ("[" ++ errFile.filename ++ "] " ++ "e1") ∈
       (upload_snapshot_report [errFile]).errors) :=
  ⟨⟨by decide, by decide⟩,
   upload_never_fails_and_surfaces_errors [errFile] [] errFile (by decide)
     "e1" (by decide)⟩

/-- C6: the JSON listing maps each ordered row to a record with exactly
the four fields `snapshot_id`, `snapshot_date`, `uploaded_at`,
`source_filename`, each copied from the corresponding column. -/
theorem list_snapshots_record_fields (table : List SnapshotRow) :
    list_snapshots table = (snapshotsOrderedByDateDesc table).map rowToRecord ∧
    ∀ row : SnapshotRow,
      (rowToRecord row).snapshot_id = row.snapshot_id ∧
      (rowToRecord row).snapshot_date = row.snapshot_date ∧
      (rowToRecord row).uploaded_at = row.uploaded_at ∧
      (rowToRecord row).source_filename = row.source_filename :=
  ⟨rfl, fun _ => ⟨rfl, rfl, rfl, rfl⟩⟩

/-- C9: the aggregated success flag depends only on the per-file error
lists: it equals emptiness of all per-file error lists, so batches agreeing
on their error lists (but differing in warnings or per-file success flags)
agree on aggregated success. -/
theorem upload_success_depends_only_on_errors
    (files1 files2 : List ImportedFile)
    (h : files1.map (fun f => f.report.errors) =
         files2.map (fun f => f.report.errors)) :
    (upload_snapshot_report files1).success =
      (upload_snapshot_report files2).success ∧
    (upload_snapshot_report files1).success =
      files1.all (fun f => f.report.errors.isEmpty) := by
  have h1 := upload_report_success_eq files1
  have h2 := upload_report_success_eq files2
  refine ⟨?_, h1⟩
  have hmap : ∀ fs : List ImportedFile,
      fs.all (fun f => f.report.errors.isEmpty) =
        (fs.map (fun f => f.report.errors)).all (fun l => l.isEmpty) := by
    intro fs
    induction fs with
    | nil => rfl
    | cons a l ih => simp_all
  rw [h1, h2, hmap files1, hmap files2, h]

/-- A file equal to `errFile` except for its warnings and success flag. -/
def errFileVariant : ImportedFile :=
  { filename := "bad.csv",
    report :=
      { success := true, message := "", processed_projects := 1,
        processed_events := 2, warnings := ["other warning"],
        errors := ["e1", "e2"] } }

/-- Witness for C9: `[errFile]` and `[errFileVariant]` differ only in
warnings and per-file success flags and get the same aggregated success. -/
theorem upload_success_depends_only_on_errors_witness :
    ([errFile].map (fun f => f.report.errors) =
      [errFileVariant].map (fun f => f.report.errors)) ∧
    ((upload_snapshot_report [errFile]).success =
       (upload_snapshot_report [errFileVariant]).success ∧
     (upload_snapshot_report [errFile]).success =
       [errFile].all (fun f => f.report.errors.isEmpty)) :=
  ⟨by decide,
   upload_success_depends_only_on_errors [errFile] [errFileVariant] (by decide)⟩

/-- C10: when at least one file produces errors, the message reports a
succeeded count equal to the number of files whose per-file report has
success true, and succeeded + failed = N. -/
theorem upload_failure_message_counts (files : List ImportedFile)
    (h : ∃ f ∈ files, f.report.errors ≠ []) :
    (upload_snapshot_report files).message =
      "Processed " ++ toString files.length ++ " files. " ++
        toString (files.countP (fun f => f.report.success)) ++
        " succeeded, " ++
        toString (files.length - files.countP (fun f => f.report.success)) ++
        " failed." ∧
    files.countP (fun f => f.report.success) +
      (files.length - files.countP (fun f => f.report.success)) =
      files.length := by
  have hne : (files.map prefixedErrors).flatten ≠ [] := by
    rw [Ne, upload_errors_flatten_empty_iff]
    intro hall
    obtain ⟨f, hf, hfe⟩ := h
    rw [List.all_eq_true] at hall
    exact hfe (by simpa [List.isEmpty_iff] using hall f hf)
  refine ⟨?_, ?_⟩
  · rw [upload_report_message_eq]
    simp [hne]
  · have hle : files.countP (fun f => f.report.success) ≤ files.length :=
      List.countP_le_length (fun f : ImportedFile => f.report.success)
    omega

/-- Witness for C10 at the two-element batch `[errFile, goodFile]`. -/
theorem upload_failure_message_counts_witness :
    (∃ f ∈ [errFile, goodFile], f.report.errors ≠ []) ∧
    ((upload_snapshot_report [errFile, goodFile]).message =
      "Processed " ++ toString ([errFile, goodFile] : List ImportedFile).length ++
        " files. " ++
        toString ([errFile, goodFile].countP (fun f => f.report.success)) ++
        " succeeded, " ++
        toString (([errFile, goodFile] : List ImportedFile).length -
          [errFile, goodFile].countP (fun f => f.report.success)) ++
        " failed." ∧
     [errFile, goodFile].countP (fun f => f.report.success) +
       (([errFile, goodFile] : List ImportedFile).length -
         [errFile, goodFile].countP (fun f => f.report.success)) =
       ([errFile, goodFile] : List ImportedFile).length) :=
  ⟨⟨errFile, by decide, by decide⟩,
   upload_failure_message_counts [errFile, goodFile]
     ⟨errFile, by decide, by decide⟩⟩

end PIDashboard
